import Mathlib

/-!
A verification development for the personal-finance-tracker program
(`main.py`).  The transaction store, range query, aggregator and reporter
are embedded shallowly:

* a persisted row is a `Row` (date kept as the raw string exactly as it
  sits in the CSV file; the amount is modelled as an exact rational, no
  claim considered here depending on floating point rounding);
* `parseDate` models `datetime.strptime(s, "%d-%m-%Y")` (and
  `pd.to_datetime(..., format="%d-%m-%Y")`, which accepts the same
  strings for this format): day 1-2 digits, month 1-2 digits, year
  exactly 4 digits, all dash-separated, validated as a real calendar
  date (month 1-12, day within the length of the month, leap years
  handled);
* `get_transactions` models `CSV.get_transactions`: parse the date
  column coercing failures (`filterMap parseRow` = `to_datetime` +
  `dropna`), parse both bounds with `strptime` (failure = raised
  `ValueError`, modelled by `none`), then the inclusive mask filter;
* the file-system state for `CSV.initialize_csv` is `Option (List Row)`:
  `none` = the CSV file is absent, `some rows` = it exists with its
  header line and `rows` data lines;
* the console output of the reporter is the list of `OutputItem`
  values the code prints after the query filter.
-/

namespace FinanceTracker

/-- A calendar date, the value `strptime` produces from a `DD-MM-YYYY`
string. -/
structure Date where
  year : Nat
  month : Nat
  day : Nat
deriving DecidableEq, Repr

/-- Numeric key giving calendar order: on valid dates (month ≤ 12,
day ≤ 31) comparing keys is comparing dates chronologically, exactly how
`datetime`/`Timestamp` values compare in the mask of
`CSV.get_transactions`. -/
def Date.key (d : Date) : Nat :=
  d.year * 10000 + d.month * 100 + d.day

/-- Chronological (calendar-value) order on dates, spelled out
lexicographically on year, month, day. -/
def Date.lexLe (a b : Date) : Prop :=
  a.year < b.year ∨
    (a.year = b.year ∧
      (a.month < b.month ∨ (a.month = b.month ∧ a.day ≤ b.day)))

instance (a b : Date) : Decidable (a.lexLe b) := by
  unfold Date.lexLe
  infer_instance

/-- Gregorian leap-year rule used by `datetime`. -/
def isLeap (y : Nat) : Bool :=
  y % 4 == 0 && (y % 100 != 0 || y % 400 == 0)

/-- Number of days of month `m` of year `y` (the bound `datetime`
enforces on the day field). -/
def daysInMonth (y m : Nat) : Nat :=
  if m = 2 then (if isLeap y then 29 else 28)
  else if m = 4 ∨ m = 6 ∨ m = 9 ∨ m = 11 then 30
  else 31

/-- Split a character list at every dash, keeping empty groups, the way
the `%d-%m-%Y` pattern cuts the input at its literal dashes. -/
def splitDashes : List Char → List (List Char)
  | [] => [[]]
  | c :: rest =>
    if c = '-' then [] :: splitDashes rest
    else
      match splitDashes rest with
      | [] => [[c]]
      | g :: gs => (c :: g) :: gs

/-- Value of a digit string read in base 10. -/
def digitsVal (cs : List Char) : Nat :=
  cs.foldl (fun acc c => acc * 10 + (c.toNat - '0'.toNat)) 0

/-- One field of the date pattern: nonempty, all digits, at most
`maxLen` characters. -/
def digitField (cs : List Char) (maxLen : Nat) : Bool :=
  !cs.isEmpty && cs.length ≤ maxLen && cs.all Char.isDigit

/-- Model of `datetime.strptime(s, "%d-%m-%Y")`: `none` is a raised
`ValueError`.  `%d` accepts one or two digits (value 1-31), `%m` one or
two digits (value 1-12), `%Y` exactly four digits; the resulting triple
must be a real calendar date with year ≥ 1. -/
def parseDate (s : String) : Option Date :=
  match splitDashes s.data with
  | [ds, ms, ys] =>
    if digitField ds 2 && digitField ms 2
        && (ys.length == 4 && ys.all Char.isDigit) then
      if 1 ≤ digitsVal ds && 1 ≤ digitsVal ms && digitsVal ms ≤ 12
          && 1 ≤ digitsVal ys
          && digitsVal ds ≤ daysInMonth (digitsVal ys) (digitsVal ms)
      then some ⟨digitsVal ys, digitsVal ms, digitsVal ds⟩
      else none
    else none
  | _ => none

/-- One data line of the CSV file as written: the date still a raw
string, the amount an exact rational standing for the numeric amount. -/
structure Row where
  date : String
  amount : Rat
  category : String
  description : String
deriving DecidableEq, Repr

/-- A record as `get_transactions` returns it: the `date` column already
converted to a calendar value by `pd.to_datetime`, the other three
columns untouched (`astype(float)` keeps the numeric value). -/
structure PRecord where
  date : Date
  amount : Rat
  category : String
  description : String
deriving DecidableEq, Repr

/-- `pd.to_datetime(df["date"], errors="coerce")` on one row: `none` is
`NaT`, later dropped by `dropna`. -/
def parseRow (r : Row) : Option PRecord :=
  (parseDate r.date).map fun d =>
    { date := d, amount := r.amount, category := r.category,
      description := r.description }

/-- The 15 fixed seed rows of `CSV.add_sample_data`, in file order. -/
def sampleData : List Row :=
  [⟨"01-01-2025", 2000, "Income", "Salary"⟩,
   ⟨"02-01-2025", -150, "Expense", "Groceries"⟩,
   ⟨"03-01-2025", 500, "Income", "Freelance work"⟩,
   ⟨"04-01-2025", -200, "Expense", "Transport"⟩,
   ⟨"05-01-2025", -100, "Expense", "Entertainment"⟩,
   ⟨"06-01-2025", 1000, "Income", "Investment Returns"⟩,
   ⟨"07-01-2025", -50, "Expense", "Snacks"⟩,
   ⟨"08-01-2025", -300, "Expense", "Rent"⟩,
   ⟨"09-01-2025", 1500, "Income", "Freelance work"⟩,
   ⟨"10-01-2025", -250, "Expense", "Utilities"⟩,
   ⟨"11-01-2025", 100, "Income", "Side project"⟩,
   ⟨"12-01-2025", -200, "Expense", "Groceries"⟩,
   ⟨"13-01-2025", -150, "Expense", "Transport"⟩,
   ⟨"14-01-2025", 2500, "Income", "Salary"⟩,
   ⟨"15-01-2025", -300, "Expense", "Insurance"⟩]

/-- `CSV.add_entry`: one row is appended at the end of the file. -/
def add_entry (file : List Row) (r : Row) : List Row :=
  file ++ [r]

/-- `CSV.add_sample_data(df)`: appends the 15 seed rows to the file
when the data frame `df` it received is empty, otherwise does
nothing. -/
def add_sample_data (df : List Row) (file : List Row) : List Row :=
  if df.isEmpty then file ++ sampleData else file

/-- `CSV.initialize_csv`: reading the file succeeds when it exists
(`some rows`, header line plus `rows`) and nothing happens; when it is
absent (`none`, a `FileNotFoundError`), a header-only file is written
and `add_sample_data` is called on the fresh empty frame, seeding the
file. -/
def init_csv : Option (List Row) → Option (List Row)
  | some rows => some rows
  | none => some (add_sample_data [] [])

/-- The inclusive mask
`(df["date"] >= start_date) & (df["date"] <= end_date)` of
`CSV.get_transactions`; `Timestamp` values compare chronologically,
which on valid dates is the `Date.key` order. -/
def inMask (sd ed : Date) (p : PRecord) : Bool :=
  sd.key ≤ p.date.key && p.date.key ≤ ed.key

/-- `CSV.get_transactions(start_date, end_date)` over file rows `rows`:
the date column is parsed with coercion and unparseable rows dropped
(`filterMap parseRow`), both bounds are parsed with `strptime` (a raised
`ValueError` is `none`), and the mask keeps the rows whose date lies in
the inclusive range. -/
def get_transactions (rows : List Row) (s e : String) :
    Option (List PRecord) :=
  match parseDate s, parseDate e with
  | some sd, some ed =>
    some ((rows.filterMap parseRow).filter (inMask sd ed))
  | _, _ => none

/-- `total_income`: sum of the amounts of the filtered rows whose
category is the literal `Income`. -/
def totalIncome (ps : List PRecord) : Rat :=
  ((ps.filter fun p => p.category == "Income").map PRecord.amount).sum

/-- `total_expense`: sum of the amounts of the filtered rows whose
category is the literal `Expense`. -/
def totalExpense (ps : List PRecord) : Rat :=
  ((ps.filter fun p => p.category == "Expense").map PRecord.amount).sum

/-- `Net Savings` as printed: `total_income - total_expense`. -/
def netSavings (ps : List PRecord) : Rat :=
  totalIncome ps - totalExpense ps

/-- Sum of the amounts of rows whose category is neither `Income` nor
`Expense` (they reach the result but neither total). -/
def otherSum (ps : List PRecord) : Rat :=
  ((ps.filter fun p =>
      p.category ≠ "Income" ∧ p.category ≠ "Expense").map
    PRecord.amount).sum

/-- One printed piece of the query report. -/
inductive OutputItem where
  | noTransactions : OutputItem
  | header : OutputItem
  | row : PRecord → OutputItem
  | summary : Rat → Rat → Rat → OutputItem
deriving DecidableEq, Repr

/-- The console output of `CSV.get_transactions` after the filter: the
`if filtered_df.empty` branch prints the notice, the `else` branch the
heading line and the table rows; the three summary figures are printed
unconditionally afterwards (lines 96-99 sit outside the `else`). -/
def reportOutput (ps : List PRecord) : List OutputItem :=
  (if ps.isEmpty then [OutputItem.noTransactions]
   else OutputItem.header :: ps.map OutputItem.row) ++
    [OutputItem.summary (totalIncome ps) (totalExpense ps)
      (totalIncome ps - totalExpense ps)]

/-- The query branch of `main` (choice `2`): run the query and report;
`none` models an uncaught exception escaping the branch. -/
def queryBranch (rows : List Row) (s e : String) :
    Option (List OutputItem) :=
  (get_transactions rows s e).map reportOutput

/-- The four dispatch outcomes of the menu loop in `main`. -/
inductive MenuAction where
  | doAdd : MenuAction
  | doQuery : MenuAction
  | doExit : MenuAction
  | doInvalid : MenuAction
deriving DecidableEq, Repr

/-- Menu dispatch on the choice string read in `main`. -/
def dispatch (choice : String) : MenuAction :=
  if choice = "1" then MenuAction.doAdd
  else if choice = "2" then MenuAction.doQuery
  else if choice = "3" then MenuAction.doExit
  else MenuAction.doInvalid

/-- Whether the `while True` loop runs another iteration after the
action: only `break` on choice `3` leaves it. -/
def continuesLoop : MenuAction → Bool
  | MenuAction.doExit => false
  | _ => true

/-- Every month has at most 31 days. -/
theorem daysInMonth_le (y m : Nat) : daysInMonth y m ≤ 31 := by
  unfold daysInMonth
  split <;> split <;> omega

/-- A date produced by `parseDate` is a valid calendar triple. -/
theorem parseDate_valid {s : String} {d : Date}
    (h : parseDate s = some d) :
    1 ≤ d.month ∧ d.month ≤ 12 ∧ 1 ≤ d.day ∧ d.day ≤ 31 := by
  unfold parseDate at h
  split at h
  · split at h
    · split at h
      · rename_i hcond
        simp only [Bool.and_eq_true, decide_eq_true_eq] at hcond
        obtain ⟨⟨⟨⟨h1, h2⟩, h3⟩, h4⟩, h5⟩ := hcond
        cases h
        exact ⟨h2, h3, h1, le_trans h5 (daysInMonth_le _ _)⟩
      · exact absurd h (by simp)
    · exact absurd h (by simp)
  · exact absurd h (by simp)

/-- On valid calendar triples, the numeric `Date.key` order is the
chronological (year, month, day) order: this is what makes the
`Timestamp` mask a calendar-value comparison. -/
theorem key_le_key_iff_lexLe {a b : Date}
    (ha : 1 ≤ a.month ∧ a.month ≤ 12 ∧ 1 ≤ a.day ∧ a.day ≤ 31)
    (hb : 1 ≤ b.month ∧ b.month ≤ 12 ∧ 1 ≤ b.day ∧ b.day ≤ 31) :
    a.key ≤ b.key ↔ a.lexLe b := by
  unfold Date.key Date.lexLe
  obtain ⟨_, _, _, _⟩ := ha
  obtain ⟨_, _, _, _⟩ := hb
  omega

/-- C1: for every stored record whose date parses under the fixed
`DD-MM-YYYY` format and every pair of well-formed bounds, the query
returns the record iff its date lies between the bounds, both ends
inclusive, dates being compared chronologically (year, then month, then
day), not as strings. -/
theorem query_mem_iff_in_range
    (rows : List Row) (r : Row) (s e : String) (sd ed d : Date)
    (hs : parseDate s = some sd) (he : parseDate e = some ed)
    (hd : parseDate r.date = some d) (hr : r ∈ rows) :
    ∃ ps, get_transactions rows s e = some ps ∧
      (({ date := d, amount := r.amount, category := r.category,
          description := r.description } : PRecord) ∈ ps ↔
        (sd.lexLe d ∧ d.lexLe ed)) := by
  refine ⟨(rows.filterMap parseRow).filter (inMask sd ed), ?_, ?_⟩
  · unfold get_transactions
    rw [hs, he]
  · have hsv := parseDate_valid hs
    have hev := parseDate_valid he
    have hdv := parseDate_valid hd
    have hmask : ∀ p : PRecord, p.date = d →
        (inMask sd ed p = true ↔ (sd.lexLe d ∧ d.lexLe ed)) := by
      intro p hp
      unfold inMask
      rw [hp]
      simp only [Bool.and_eq_true, decide_eq_true_eq]
      rw [key_le_key_iff_lexLe hsv hdv, key_le_key_iff_lexLe hdv hev]
    constructor
    · intro hmem
      rw [List.mem_filter] at hmem
      exact (hmask _ rfl).mp hmem.2
    · intro hin
      rw [List.mem_filter]
      refine ⟨List.mem_filterMap.mpr ⟨r, hr, ?_⟩, (hmask _ rfl).mpr hin⟩
      simp [parseRow, hd]

/-- Witness for C1 at a concrete store and range. -/
theorem query_mem_iff_in_range_witness :
    parseDate "15-03-2025" = some ⟨2025, 3, 15⟩ ∧
    parseDate "01-03-2025" = some ⟨2025, 3, 1⟩ ∧
    parseDate "31-03-2025" = some ⟨2025, 3, 31⟩ ∧
    ∃ ps, get_transactions [⟨"15-03-2025", -75, "Expense", "Coffee"⟩]
        "01-03-2025" "31-03-2025" = some ps ∧
      (({ date := ⟨2025, 3, 15⟩, amount := -75, category := "Expense",
          description := "Coffee" } : PRecord) ∈ ps ↔
        (Date.lexLe ⟨2025, 3, 1⟩ ⟨2025, 3, 15⟩ ∧
          Date.lexLe ⟨2025, 3, 15⟩ ⟨2025, 3, 31⟩)) :=
  ⟨by decide, by decide, by decide,
    query_mem_iff_in_range
      [⟨"15-03-2025", -75, "Expense", "Coffee"⟩]
      ⟨"15-03-2025", -75, "Expense", "Coffee"⟩
      "01-03-2025" "31-03-2025" ⟨2025, 3, 1⟩ ⟨2025, 3, 31⟩ ⟨2025, 3, 15⟩
      (by decide) (by decide) (by decide) (by simp)⟩

/-- C2 (amended): appending a valid record and querying a covering
range yields the old result with the new record appended at the end,
fields unchanged: the occurrence count of the record grows by exactly
one, and is exactly one when no identical record was already in
range. -/
theorem append_query_roundtrip
    (rows : List Row) (r : Row) (s e : String) (sd ed d : Date)
    (hs : parseDate s = some sd) (he : parseDate e = some ed)
    (hd : parseDate r.date = some d)
    (hlo : sd.lexLe d) (hhi : d.lexLe ed) :
    ∃ ps qs,
      get_transactions (add_entry rows r) s e = some ps ∧
      get_transactions rows s e = some qs ∧
      ps = qs ++ [{ date := d, amount := r.amount,
                    category := r.category,
                    description := r.description }] ∧
      ps.count { date := d, amount := r.amount, category := r.category,
                 description := r.description } =
        qs.count { date := d, amount := r.amount,
                   category := r.category,
                   description := r.description } + 1 ∧
      (({ date := d, amount := r.amount, category := r.category,
          description := r.description } : PRecord) ∉ qs →
        ps.count { date := d, amount := r.amount,
                   category := r.category,
                   description := r.description } = 1) := by
  have hvs := parseDate_valid hs
  have hve := parseDate_valid he
  have hvd := parseDate_valid hd
  have hmask : inMask sd ed { date := d, amount := r.amount,
                              category := r.category,
                              description := r.description } = true := by
    unfold inMask
    simp only [Bool.and_eq_true, decide_eq_true_eq]
    exact ⟨(key_le_key_iff_lexLe hvs hvd).mpr hlo,
      (key_le_key_iff_lexLe hvd hve).mpr hhi⟩
  have hsplit : (add_entry rows r).filterMap parseRow =
      rows.filterMap parseRow ++
        [{ date := d, amount := r.amount, category := r.category,
           description := r.description }] := by
    unfold add_entry
    rw [List.filterMap_append]
    simp [parseRow, hd]
  refine ⟨((rows.filterMap parseRow) ++
      [(⟨d, r.amount, r.category, r.description⟩ : PRecord)]).filter
        (inMask sd ed),
    (rows.filterMap parseRow).filter (inMask sd ed), ?_, ?_, ?_, ?_, ?_⟩
  · unfold get_transactions
    rw [hs, he, hsplit]
  · unfold get_transactions
    rw [hs, he]
  · rw [List.filter_append]
    simp [hmask]
  · rw [List.filter_append]
    simp [hmask, List.count_append]
  · intro hnot
    rw [List.filter_append]
    simp [hmask, List.count_append, List.count_eq_zero.mpr hnot]

/-- C2 counterexample: when the store already holds a record identical
to the one being appended and in range, the covering query returns that
record twice, not exactly once. -/
theorem append_query_duplicate_twice :
    (get_transactions
        (add_entry [⟨"15-03-2025", -75, "Expense", "Coffee"⟩]
          ⟨"15-03-2025", -75, "Expense", "Coffee"⟩)
        "01-03-2025" "31-03-2025").map
      (fun ps =>
        ps.count ⟨⟨2025, 3, 15⟩, -75, "Expense", "Coffee"⟩) = some 2 ∧
    (get_transactions
        (add_entry [⟨"15-03-2025", -75, "Expense", "Coffee"⟩]
          ⟨"15-03-2025", -75, "Expense", "Coffee"⟩)
        "01-03-2025" "31-03-2025").map
      (fun ps =>
        ps.count ⟨⟨2025, 3, 15⟩, -75, "Expense", "Coffee"⟩) ≠ some 1 := by
  exact ⟨by decide, by decide⟩

/-- Witness for the amended C2 at a concrete append and range. -/
theorem append_query_roundtrip_witness :
    parseDate "01-03-2025" = some ⟨2025, 3, 1⟩ ∧
    parseDate "31-03-2025" = some ⟨2025, 3, 31⟩ ∧
    parseDate "15-03-2025" = some ⟨2025, 3, 15⟩ ∧
    Date.lexLe ⟨2025, 3, 1⟩ ⟨2025, 3, 15⟩ ∧
    Date.lexLe ⟨2025, 3, 15⟩ ⟨2025, 3, 31⟩ ∧
    (∃ ps qs,
      get_transactions
          (add_entry [] ⟨"15-03-2025", -75, "Expense", "Coffee"⟩)
          "01-03-2025" "31-03-2025" = some ps ∧
      get_transactions ([] : List Row) "01-03-2025" "31-03-2025" =
        some qs ∧
      ps = qs ++ [⟨⟨2025, 3, 15⟩, -75, "Expense", "Coffee"⟩] ∧
      ps.count (⟨⟨2025, 3, 15⟩, -75, "Expense", "Coffee"⟩ : PRecord) =
        qs.count ⟨⟨2025, 3, 15⟩, -75, "Expense", "Coffee"⟩ + 1 ∧
      ((⟨⟨2025, 3, 15⟩, -75, "Expense", "Coffee"⟩ : PRecord) ∉ qs →
        ps.count (⟨⟨2025, 3, 15⟩, -75, "Expense", "Coffee"⟩ :
          PRecord) = 1)) :=
  ⟨by decide, by decide, by decide, by decide, by decide,
    append_query_roundtrip [] ⟨"15-03-2025", -75, "Expense", "Coffee"⟩
      "01-03-2025" "31-03-2025" ⟨2025, 3, 1⟩ ⟨2025, 3, 31⟩ ⟨2025, 3, 15⟩
      (by decide) (by decide) (by decide) (by decide) (by decide)⟩

/-- C3: for every input sequence the printed net equals total income
minus total expense, total income summing the amounts of `Income` rows
and total expense those of `Expense` rows; on the empty input both
totals and the net are zero. -/
theorem net_eq_income_sub_expense :
    (∀ ps : List PRecord,
      netSavings ps = totalIncome ps - totalExpense ps ∧
      totalIncome ps =
        ((ps.filter fun p => p.category == "Income").map
          PRecord.amount).sum ∧
      totalExpense ps =
        ((ps.filter fun p => p.category == "Expense").map
          PRecord.amount).sum) ∧
    totalIncome [] = 0 ∧ totalExpense [] = 0 ∧ netSavings [] = 0 := by
  refine ⟨fun ps => ⟨rfl, rfl, rfl⟩, rfl, rfl, ?_⟩
  show totalIncome [] - totalExpense [] = 0
  show (0 : Rat) - 0 = 0
  simp

/-- C4: `initialize_csv` is a no-op on an existing store, seeded or
not, and iterating it any positive number of times equals calling it
once, so the 15 seed records are never duplicated. -/
theorem init_csv_idempotent :
    (∀ rows, init_csv (some rows) = some rows) ∧
    (∀ (n : Nat) (st : Option (List Row)),
      init_csv^[n + 1] st = init_csv st) ∧
    (∀ (n : Nat) (r : Row),
      ((init_csv^[n + 1] none).getD []).count r = sampleData.count r) := by
  have hiter : ∀ (n : Nat) (st : Option (List Row)),
      init_csv^[n + 1] st = init_csv st := by
    intro n
    induction n with
    | zero => intro st; rfl
    | succ k ih =>
      intro st
      rw [Function.iterate_succ_apply, ih (init_csv st)]
      cases st <;> rfl
  refine ⟨fun rows => rfl, hiter, ?_⟩
  intro n r
  rw [hiter n none]
  rfl

/-- C5: on an absent store, `initialize_csv` creates the file and seeds
it with exactly the 15 fixed records, dates `01-01-2025` through
`15-01-2025` and the fixed amounts, categories and descriptions, no
record repeated, leaving a non-empty store. -/
theorem init_csv_seeds_absent_store :
    init_csv none = some sampleData ∧
    sampleData.length = 15 ∧
    (sampleData.map fun r => parseDate r.date) =
      (List.range 15).map (fun i => some ⟨2025, 1, i + 1⟩) ∧
    sampleData.map Row.amount =
      [2000, -150, 500, -200, -100, 1000, -50, -300, 1500, -250, 100,
       -200, -150, 2500, -300] ∧
    sampleData.map Row.category =
      ["Income", "Expense", "Income", "Expense", "Expense", "Income",
       "Expense", "Expense", "Income", "Expense", "Income", "Expense",
       "Expense", "Income", "Expense"] ∧
    sampleData.map Row.description =
      ["Salary", "Groceries", "Freelance work", "Transport",
       "Entertainment", "Investment Returns", "Snacks", "Rent",
       "Freelance work", "Utilities", "Side project", "Groceries",
       "Transport", "Salary", "Insurance"] ∧
    sampleData.Nodup ∧
    sampleData ≠ [] := by
  decide

/-- C6: a stored row whose date string does not parse under the fixed
format is silently dropped from the result of every query, whatever the
range, and such rows never make the query fail: only malformed bounds
do. -/
theorem unparseable_row_excluded
    (pre post : List Row) (r : Row) (s e : String)
    (hbad : parseDate r.date = none) :
    get_transactions (pre ++ r :: post) s e =
      get_transactions (pre ++ post) s e ∧
    (get_transactions (pre ++ r :: post) s e).isSome =
      ((parseDate s).isSome && (parseDate e).isSome) := by
  have hfm : (pre ++ r :: post).filterMap parseRow =
      (pre ++ post).filterMap parseRow := by
    rw [List.filterMap_append, List.filterMap_append,
      List.filterMap_cons]
    simp [parseRow, hbad]
  unfold get_transactions
  rcases hs : parseDate s with _ | sd <;>
    rcases he : parseDate e with _ | ed <;> simp [hfm]

/-- Witness for C6: a row dated `31-13-2025` neither appears in the
result nor disturbs the query. -/
theorem unparseable_row_excluded_witness :
    parseDate "31-13-2025" = none ∧
    (get_transactions
        ([⟨"01-03-2025", 10, "Income", "x"⟩] ++
          ⟨"31-13-2025", 5, "Income", "bad"⟩ :: [])
        "01-03-2025" "31-03-2025" =
      get_transactions ([⟨"01-03-2025", 10, "Income", "x"⟩] ++ [])
        "01-03-2025" "31-03-2025" ∧
    (get_transactions
        ([⟨"01-03-2025", 10, "Income", "x"⟩] ++
          ⟨"31-13-2025", 5, "Income", "bad"⟩ :: [])
        "01-03-2025" "31-03-2025").isSome =
      ((parseDate "01-03-2025").isSome &&
        (parseDate "31-03-2025").isSome)) :=
  ⟨by decide,
    unparseable_row_excluded [⟨"01-03-2025", 10, "Income", "x"⟩] []
      ⟨"31-13-2025", 5, "Income", "bad"⟩ "01-03-2025" "31-03-2025"
      (by decide)⟩

/-- C7 counterexample: on an empty query result the code still prints
the three summary figures (all zero) after the notice, so the output is
not limited to the no-transactions notice. -/
theorem empty_report_prints_summary :
    OutputItem.summary 0 0 0 ∈ reportOutput [] ∧
    reportOutput [] ≠ [OutputItem.noTransactions] := by
  have h : reportOutput [] =
      [OutputItem.noTransactions, OutputItem.summary 0 0 0] := by
    simp [reportOutput, totalIncome, totalExpense]
  rw [h]
  exact ⟨by simp, by simp⟩

/-- C7 (amended): on an empty result the reporter prints the
no-transactions notice and renders no table rows and no heading, but
the three summary figures are still printed, all zero. -/
theorem empty_report_notice_and_zero_summary :
    reportOutput [] =
      [OutputItem.noTransactions, OutputItem.summary 0 0 0] ∧
    (∀ p, OutputItem.row p ∉ reportOutput []) ∧
    OutputItem.header ∉ reportOutput [] := by
  have h : reportOutput [] =
      [OutputItem.noTransactions, OutputItem.summary 0 0 0] := by
    simp [reportOutput, totalIncome, totalExpense]
  refine ⟨h, ?_, ?_⟩ <;> rw [h] <;> simp

/-- C8: a well-formed range in which no stored date falls (or in which
no stored date parses) yields an empty result, not an exception: the
query branch completes with the no-transactions notice printed and the
menu loop runs another iteration. -/
theorem empty_range_not_error
    (rows : List Row) (s e : String) (sd ed : Date)
    (hs : parseDate s = some sd) (he : parseDate e = some ed)
    (hnone : ∀ r ∈ rows, ∀ d : Date, parseDate r.date = some d →
      ¬(sd.lexLe d ∧ d.lexLe ed)) :
    get_transactions rows s e = some [] ∧
    queryBranch rows s e = some (reportOutput []) ∧
    OutputItem.noTransactions ∈ reportOutput [] ∧
    continuesLoop (dispatch "2") = true := by
  have hvs := parseDate_valid hs
  have hve := parseDate_valid he
  have hempty : (rows.filterMap parseRow).filter (inMask sd ed) = [] := by
    rw [List.filter_eq_nil_iff]
    intro p hp
    rw [List.mem_filterMap] at hp
    obtain ⟨r, hr, hpr⟩ := hp
    unfold parseRow at hpr
    rw [Option.map_eq_some'] at hpr
    obtain ⟨d, hd, hpd⟩ := hpr
    cases hpd
    have hv := parseDate_valid hd
    have hnot := hnone r hr d hd
    unfold inMask
    simp only [Bool.and_eq_true, decide_eq_true_eq]
    rw [key_le_key_iff_lexLe hvs hv, key_le_key_iff_lexLe hv hve]
    exact hnot
  have h1 : get_transactions rows s e = some [] := by
    unfold get_transactions
    rw [hs, he]
    exact congrArg some hempty
  refine ⟨h1, ?_, ?_, ?_⟩
  · unfold queryBranch
    rw [h1]
    rfl
  · simp [reportOutput]
  · decide

/-- Witness for C8: a store with a January record queried over
February. -/
theorem empty_range_not_error_witness :
    parseDate "01-02-2025" = some ⟨2025, 2, 1⟩ ∧
    parseDate "28-02-2025" = some ⟨2025, 2, 28⟩ ∧
    (get_transactions [⟨"01-01-2025", 5, "Income", "pay"⟩]
        "01-02-2025" "28-02-2025" = some [] ∧
      queryBranch [⟨"01-01-2025", 5, "Income", "pay"⟩]
        "01-02-2025" "28-02-2025" = some (reportOutput []) ∧
      OutputItem.noTransactions ∈ reportOutput [] ∧
      continuesLoop (dispatch "2") = true) :=
  ⟨by decide, by decide,
    empty_range_not_error [⟨"01-01-2025", 5, "Income", "pay"⟩]
      "01-02-2025" "28-02-2025" ⟨2025, 2, 1⟩ ⟨2025, 2, 28⟩
      (by decide) (by decide)
      (by
        intro r hr d hd
        simp only [List.mem_singleton] at hr
        subst hr
        rw [show parseDate "01-01-2025" = some ⟨2025, 1, 1⟩ from
          by decide] at hd
        cases hd
        decide)⟩

/-- C9: a start or end bound that is not a well-formed `DD-MM-YYYY`
date makes the query itself fail (the uncaught `strptime`
`ValueError`), rather than return an empty result. -/
theorem malformed_bound_raises
    (rows : List Row) (s e : String)
    (h : parseDate s = none ∨ parseDate e = none) :
    get_transactions rows s e = none ∧
    get_transactions rows s e ≠ some [] := by
  have hmain : get_transactions rows s e = none := by
    unfold get_transactions
    rcases hs : parseDate s with _ | sd <;>
      rcases he : parseDate e with _ | ed <;> simp_all
  exact ⟨hmain, by simp [hmain]⟩

/-- Witness for C9: the bound `31-13-2025` (month 13) raises even on a
non-empty store. -/
theorem malformed_bound_raises_witness :
    (parseDate "31-13-2025" = none ∨ parseDate "01-01-2025" = none) ∧
    (get_transactions sampleData "31-13-2025" "01-01-2025" = none ∧
      get_transactions sampleData "31-13-2025" "01-01-2025" ≠
        some []) :=
  ⟨Or.inl (by decide),
    malformed_bound_raises sampleData "31-13-2025" "01-01-2025"
      (Or.inl (by decide))⟩

/-- Unfolding `total_income` over a cons cell. -/
theorem totalIncome_cons (p : PRecord) (t : List PRecord) :
    totalIncome (p :: t) =
      (if p.category = "Income" then p.amount else 0) + totalIncome t := by
  unfold totalIncome
  rw [List.filter_cons]
  by_cases h : p.category = "Income" <;> simp [h]

/-- Unfolding `total_expense` over a cons cell. -/
theorem totalExpense_cons (p : PRecord) (t : List PRecord) :
    totalExpense (p :: t) =
      (if p.category = "Expense" then p.amount else 0) +
        totalExpense t := by
  unfold totalExpense
  rw [List.filter_cons]
  by_cases h : p.category = "Expense" <;> simp [h]

/-- Unfolding the other-category sum over a cons cell. -/
theorem otherSum_cons (p : PRecord) (t : List PRecord) :
    otherSum (p :: t) =
      (if p.category ≠ "Income" ∧ p.category ≠ "Expense" then p.amount
       else 0) + otherSum t := by
  unfold otherSum
  rw [List.filter_cons]
  by_cases h : p.category ≠ "Income" ∧ p.category ≠ "Expense" <;>
    simp [h]

/-- The two totals and the other-category sum partition the sum of all
returned amounts. -/
theorem totals_partition (qs : List PRecord) :
    totalIncome qs + totalExpense qs + otherSum qs =
      (qs.map PRecord.amount).sum := by
  induction qs with
  | nil => simp [totalIncome, totalExpense, otherSum]
  | cons p t ih =>
    rw [totalIncome_cons, totalExpense_cons, otherSum_cons,
      List.map_cons, List.sum_cons, ← ih]
    by_cases hi : p.category = "Income"
    · simp [hi]
      ring
    · by_cases hx : p.category = "Expense"
      · simp [hi, hx]
        ring
      · simp [hi, hx]
        ring

/-- Dropping every record of a non-`Income` category leaves
`total_income` unchanged. -/
theorem totalIncome_filter_ne (c : String) (hc : c ≠ "Income")
    (ps : List PRecord) :
    totalIncome (ps.filter fun p => p.category ≠ c) = totalIncome ps := by
  induction ps with
  | nil => rfl
  | cons p t ih =>
    by_cases hpc : p.category = c
    · rw [List.filter_cons_of_neg (by simp [hpc]), ih, totalIncome_cons,
        hpc, if_neg hc]
      simp
    · rw [List.filter_cons_of_pos (by simp [hpc]), totalIncome_cons,
        totalIncome_cons, ih]

/-- Dropping every record of a non-`Expense` category leaves
`total_expense` unchanged. -/
theorem totalExpense_filter_ne (c : String) (hc : c ≠ "Expense")
    (ps : List PRecord) :
    totalExpense (ps.filter fun p => p.category ≠ c) =
      totalExpense ps := by
  induction ps with
  | nil => rfl
  | cons p t ih =>
    by_cases hpc : p.category = c
    · rw [List.filter_cons_of_neg (by simp [hpc]), ih,
        totalExpense_cons, hpc, if_neg hc]
      simp
    · rw [List.filter_cons_of_pos (by simp [hpc]), totalExpense_cons,
        totalExpense_cons, ih]

/-- C10 (amended): a stored record whose category is neither `Income`
nor `Expense` is still returned when its date is in range, contributes
to neither total (dropping its category changes neither), and the two
totals sum to the sum of all returned amounts minus the other-category
amounts, so the two sums differ exactly when the other-category amounts
do not cancel to zero. -/
theorem other_category_in_result_not_in_totals
    (rows : List Row) (r : Row) (s e : String) (sd ed d : Date)
    (hs : parseDate s = some sd) (he : parseDate e = some ed)
    (hd : parseDate r.date = some d) (hr : r ∈ rows)
    (hlo : sd.lexLe d) (hhi : d.lexLe ed)
    (hcat : r.category ≠ "Income" ∧ r.category ≠ "Expense") :
    ∃ ps, get_transactions rows s e = some ps ∧
      (⟨d, r.amount, r.category, r.description⟩ : PRecord) ∈ ps ∧
      totalIncome (ps.filter fun p => p.category ≠ r.category) =
        totalIncome ps ∧
      totalExpense (ps.filter fun p => p.category ≠ r.category) =
        totalExpense ps ∧
      totalIncome ps + totalExpense ps =
        (ps.map PRecord.amount).sum - otherSum ps := by
  have hvs := parseDate_valid hs
  have hve := parseDate_valid he
  have hvd := parseDate_valid hd
  refine ⟨(rows.filterMap parseRow).filter (inMask sd ed),
    ?_, ?_, ?_, ?_, ?_⟩
  · unfold get_transactions
    rw [hs, he]
  · rw [List.mem_filter]
    refine ⟨List.mem_filterMap.mpr ⟨r, hr, by simp [parseRow, hd]⟩, ?_⟩
    unfold inMask
    simp only [Bool.and_eq_true, decide_eq_true_eq]
    exact ⟨(key_le_key_iff_lexLe hvs hvd).mpr hlo,
      (key_le_key_iff_lexLe hvd hve).mpr hhi⟩
  · exact totalIncome_filter_ne r.category hcat.1 _
  · exact totalExpense_filter_ne r.category hcat.2 _
  · exact eq_sub_of_add_eq (totals_partition _)

/-- C10 counterexample: with an in-range `Other` record of amount `0`,
the record is returned and feeds neither total, yet the sum of the two
totals equals the sum of all returned amounts, so the two sums do not
always differ. -/
theorem other_category_zero_amount_sums_equal :
    get_transactions
        [⟨"01-01-2025", 5, "Income", "pay"⟩,
         ⟨"02-01-2025", 0, "Other", "misc"⟩]
        "01-01-2025" "31-01-2025" =
      some [⟨⟨2025, 1, 1⟩, 5, "Income", "pay"⟩,
            ⟨⟨2025, 1, 2⟩, 0, "Other", "misc"⟩] ∧
    (⟨⟨2025, 1, 2⟩, 0, "Other", "misc"⟩ : PRecord) ∈
      [(⟨⟨2025, 1, 1⟩, 5, "Income", "pay"⟩ : PRecord),
       ⟨⟨2025, 1, 2⟩, 0, "Other", "misc"⟩] ∧
    totalIncome
        [⟨⟨2025, 1, 1⟩, 5, "Income", "pay"⟩,
         ⟨⟨2025, 1, 2⟩, 0, "Other", "misc"⟩] +
      totalExpense
        [⟨⟨2025, 1, 1⟩, 5, "Income", "pay"⟩,
         ⟨⟨2025, 1, 2⟩, 0, "Other", "misc"⟩] =
      ([(⟨⟨2025, 1, 1⟩, 5, "Income", "pay"⟩ : PRecord),
        ⟨⟨2025, 1, 2⟩, 0, "Other", "misc"⟩].map PRecord.amount).sum := by
  refine ⟨by decide, by decide, ?_⟩
  simp +decide [totalIncome, totalExpense]

/-- Witness for the amended C10 at a concrete store holding an
in-range `Other` record of amount `7`. -/
theorem other_category_in_result_witness :
    parseDate "01-01-2025" = some ⟨2025, 1, 1⟩ ∧
    parseDate "31-01-2025" = some ⟨2025, 1, 31⟩ ∧
    parseDate "02-01-2025" = some ⟨2025, 1, 2⟩ ∧
    Date.lexLe ⟨2025, 1, 1⟩ ⟨2025, 1, 2⟩ ∧
    Date.lexLe ⟨2025, 1, 2⟩ ⟨2025, 1, 31⟩ ∧
    (("Other" : String) ≠ "Income" ∧ ("Other" : String) ≠ "Expense") ∧
    (∃ ps, get_transactions
        [⟨"01-01-2025", 5, "Income", "pay"⟩,
         ⟨"02-01-2025", 7, "Other", "misc"⟩]
        "01-01-2025" "31-01-2025" = some ps ∧
      (⟨⟨2025, 1, 2⟩, 7, "Other", "misc"⟩ : PRecord) ∈ ps ∧
      totalIncome (ps.filter fun p => p.category ≠ "Other") =
        totalIncome ps ∧
      totalExpense (ps.filter fun p => p.category ≠ "Other") =
        totalExpense ps ∧
      totalIncome ps + totalExpense ps =
        (ps.map PRecord.amount).sum - otherSum ps) :=
  ⟨by decide, by decide, by decide, by decide, by decide, by decide,
    other_category_in_result_not_in_totals
      [⟨"01-01-2025", 5, "Income", "pay"⟩,
       ⟨"02-01-2025", 7, "Other", "misc"⟩]
      ⟨"02-01-2025", 7, "Other", "misc"⟩ "01-01-2025" "31-01-2025"
      ⟨2025, 1, 1⟩ ⟨2025, 1, 31⟩ ⟨2025, 1, 2⟩
      (by decide) (by decide) (by decide) (by decide) (by decide)
      (by decide) (by decide)⟩

end FinanceTracker
